import Mathlib

/-!
Shallow embedding of the docu-backend FastAPI application
(`app/main.py`, `app/models.py`).

The relational store is modelled as a list of projects, each carrying its
pages (the `pages` relationship with cascade delete).  External
collaborators (the PDF codec, the generative model, the chat microservice)
are modelled as oracle inputs: each endpoint takes the outcome of the
external call it would make as an explicit argument and returns, besides
its HTTP result, the new datastore state and a count of the external calls
it performed.
-/

set_option autoImplicit false

namespace Docu

/-- One page of a parsed PDF, as seen through the PyPDF2 reader: the text
`extract_text()` would yield (`none` when extraction yields nothing) and an
abstract rendering of the single-page PDF blob a `PdfWriter` holding just
this page would produce. -/
structure PdfPage where
  extractedText : Option String
  content : String
  deriving DecidableEq, Repr

/-- A parsed PDF (`PyPDF2.PdfReader` applied to the stored bytes): its list
of pages.  `len(pdf_reader.pages)` is `pages.length`. -/
structure Pdf where
  pages : List PdfPage
  deriving DecidableEq, Repr

/-- Row of the `pages` table (`models.Page`): 1-based page number, extracted
text (the code guards `page_text if page_text else ""`, so the column is
never null), and the nullable `generated_form_html` cache column. -/
structure Page where
  page_number : Nat
  text_content : String
  generated_form_html : Option String
  deriving DecidableEq, Repr

/-- Row of the `projects` table (`models.Project`), with its `pages`
relationship embedded (cascade delete).  `pdf_file` holds the stored PDF in
parsed form (`none` models a missing/empty blob, which the code tests with
`if not project.pdf_file`). -/
structure Project where
  id : Nat
  name : String
  pdf_file : Option Pdf
  total_pages : Nat
  chat_session_id : Option String
  pages : List Page
  deriving DecidableEq, Repr

/-- The datastore: the list of project rows (pages embedded). -/
abbrev State := List Project

/-- `db.query(Project).filter(Project.id == project_id).first()`. -/
def findProject (s : State) (pid : Nat) : Option Project :=
  s.find? (fun pr => pr.id == pid)

/-- Lookup of a page by number inside one project's pages. -/
def findPage (pr : Project) (n : Nat) : Option Page :=
  pr.pages.find? (fun pg => pg.page_number == n)

/-- `db.query(Page).filter(Page.project_id == project_id,
Page.page_number == page_number).first()` (foreign-key integrity: a page
row exists exactly when its owning project row does). -/
def findPageInState (s : State) (pid n : Nat) : Option Page :=
  (findProject s pid).bind (fun pr => findPage pr n)

/-! Python `str` operations, modelled on the code-point sequence
(`String.data`), matching Python's by-code-point indexing and slicing. -/

/-- Python `s.startswith(p)`. -/
def pyStartsWith (s p : String) : Bool :=
  s.data.take p.data.length == p.data

/-- Python `s.endswith(p)`. -/
def pyEndsWith (s p : String) : Bool :=
  s.data.drop (s.data.length - p.data.length) == p.data

/-- Python `s[k:]`. -/
def pySliceFrom (s : String) (k : Nat) : String :=
  ⟨s.data.drop k⟩

/-- Python `s[:-k]` (for `k ≤ len(s)`; as in the code's `[:-3]` after an
`endswith("```")` check). -/
def pySliceUpToNeg (s : String) (k : Nat) : String :=
  ⟨s.data.take (s.data.length - k)⟩

/-- Python `str.isspace` on one character (the whitespace set `strip()`
removes, restricted to its ASCII members). -/
def pyIsSpace (c : Char) : Bool :=
  c == ' ' || c == '\t' || c == '\n' || c == '\r' || c == '\x0b' || c == '\x0c'

/-- Python `s.strip()`. -/
def pyStrip (s : String) : String :=
  ⟨((s.data.dropWhile pyIsSpace).reverse.dropWhile pyIsSpace).reverse⟩

/-- Python `s.lower()` (ASCII case mapping, which covers the filenames the
code compares). -/
def pyLower (s : String) : String :=
  ⟨s.data.map Char.toLower⟩

/-- Python truthiness of the nullable text column: `None` and `""` are
falsy (`if page.generated_form_html:`). -/
def pyTruthy : Option String → Bool
  | none => false
  | some t => !t.data.isEmpty

/-- An HTTP error raised via `HTTPException(status_code, detail)`. -/
structure HttpError where
  status : Nat
  detail : String
  deriving DecidableEq, Repr

/-- The detail string of the out-of-range 404
(`f"Page number {page_number} out of range. PDF has {n} pages."`). -/
def pageRangeDetail (n len : Nat) : String :=
  "Page number " ++ toString n ++ " out of range. PDF has " ++ toString len ++ " pages."

/-- The normalisation `generate_form_fields` applies to the model's text
before storing it (main.py lines 267-273): strip a leading literal
"```html", then strip a leading "```" if (still) present, then strip a
trailing "```", then trim surrounding whitespace.  Note the two prefix
strips are sequential `if` statements, not alternatives. -/
def normalizeHtml (t : String) : String :=
  let t := if pyStartsWith t "```html" then pySliceFrom t 7 else t
  let t := if pyStartsWith t "```" then pySliceFrom t 3 else t
  let t := if pyEndsWith t "```" then pySliceUpToNeg t 3 else t
  pyStrip t

/-- Modelled from the spec: the normalisation as claim C3 words it, where
the leading "```html" strip and the leading "```" strip are alternatives
("strips a leading literal "```html" prefix (else a leading "```"
prefix)").  Kept for comparison with `normalizeHtml`. -/
def normalizeHtmlSpec (t : String) : String :=
  let t := if pyStartsWith t "```html" then pySliceFrom t 7
           else if pyStartsWith t "```" then pySliceFrom t 3 else t
  let t := if pyEndsWith t "```" then pySliceUpToNeg t 3 else t
  pyStrip t

/-- The generative model's response, as the endpoint inspects it:
`parts` (the code checks truthiness of `response.parts`, here the number of
parts), `text` (`response.text`), and the block reason from
`response.prompt_feedback` collapsed into an optional string. -/
structure GenaiResponse where
  parts : Nat
  text : String
  block_reason : Option String
  deriving DecidableEq, Repr

/-- The error detail built when the response has no parts. -/
def blockDetail (r : GenaiResponse) : String :=
  match r.block_reason with
  | some reason => "AI model did not return expected content." ++ " Reason: " ++ reason
  | none => "AI model did not return expected content."

/-- The `source` tag of a successful generate response. -/
inductive Source
  | cache
  | generated
  deriving DecidableEq, Repr

/-- The JSON body of a successful generate call:
`{"html_content": ..., "source": ...}`. -/
structure GenerateOk where
  html_content : String
  source : Source
  deriving DecidableEq, Repr

deriving instance DecidableEq for Except

/-- Result of one `generate_form_fields` call: the HTTP outcome, the
datastore afterwards, and how many generative-model calls were made. -/
structure GenerateOutcome where
  result : Except HttpError GenerateOk
  state : State
  modelCalls : Nat
  deriving DecidableEq, Repr

/-- `page.generated_form_html = html; db.commit()`: update the cached-HTML
field of page `n` of project `pid`. -/
def updatePageInProject (n : Nat) (h : String) (pr : Project) : Project :=
  { pr with pages := pr.pages.map (fun pg =>
      if pg.page_number == n then { pg with generated_form_html := some h } else pg) }

/-- Persist the generated HTML onto page `n` of project `pid`. -/
def setPageHtml (s : State) (pid n : Nat) (h : String) : State :=
  s.map (fun pr => if pr.id == pid then updatePageInProject n h pr else pr)

/-- `POST /projects/{project_id}/pages/{page_number}/form/generate`
(main.py lines 224-290).  `apiKey` models truthiness of
`os.getenv("GOOGLE_API_KEY")`; `modelResponse` is the outcome of
`model.generate_content_async` (`Except.error` a raised transport
exception, caught by the final `except Exception`). -/
def generate_form_fields (s : State) (pid n : Nat) (apiKey : Bool)
    (modelResponse : Except String GenaiResponse) : GenerateOutcome :=
  match findPageInState s pid n with
  | none => ⟨.error ⟨404, "Page not found"⟩, s, 0⟩
  | some page =>
    if pyTruthy page.generated_form_html then
      ⟨.ok ⟨page.generated_form_html.getD "", .cache⟩, s, 0⟩
    else
      match findProject s pid with
      | none => ⟨.error ⟨404, "Project or PDF file not found"⟩, s, 0⟩
      | some project =>
        match project.pdf_file with
        | none => ⟨.error ⟨404, "Project or PDF file not found"⟩, s, 0⟩
        | some pdf =>
          if ¬(0 < n ∧ n ≤ pdf.pages.length) then
            ⟨.error ⟨404, pageRangeDetail n pdf.pages.length⟩, s, 0⟩
          else if ¬apiKey then
            ⟨.error ⟨500, "GOOGLE_API_KEY not configured."⟩, s, 0⟩
          else
            match modelResponse with
            | .error msg =>
              ⟨.error ⟨500, "Error generating form fields: " ++ msg⟩, s, 1⟩
            | .ok resp =>
              if resp.parts ≠ 0 then
                let html := normalizeHtml resp.text
                ⟨.ok ⟨html, .generated⟩, setPageHtml s pid n html, 1⟩
              else
                ⟨.error ⟨500, blockDetail resp⟩, s, 1⟩

/-- The 404 detail of the form-html getter when nothing is cached yet. -/
def notGeneratedDetail (pid n : Nat) : String :=
  "HTML form for page " ++ toString n ++ " has not been generated yet. Use the POST /projects/"
    ++ toString pid ++ "/pages/" ++ toString n ++ "/form/generate endpoint to create it."

/-- `GET /projects/{project_id}/pages/{page_number}/form/html`
(main.py lines 292-306): returns the cached HTML whenever the column is
not null (even the empty string), 404 otherwise. -/
def get_or_generate_form_html (s : State) (pid n : Nat) : Except HttpError String :=
  match findPageInState s pid n with
  | none => .error ⟨404, "Page not found"⟩
  | some page =>
    match page.generated_form_html with
    | some h => .ok h
    | none => .error ⟨404, notGeneratedDetail pid n⟩

/-- Python `str()` of a raised `HTTPException(status, detail)`
(`f"{self.status_code}: {self.detail}"`), as the blanket
`except Exception as e` interpolates the caught exception into its own
500 detail. -/
def strOfHttpException (status : Nat) (detail : String) : String :=
  toString status ++ ": " ++ detail

/-- `GET /projects/{project_id}/pages/{page_number}/pdf`
(main.py lines 189-213).  The project/PDF lookups 404 before the `try`
block; inside it the code validates `0 < page_number <= len(pages)` and
raises `HTTPException(404, <bound-carrying message>)` when the check
fails — but this endpoint's only handler is the blanket
`except Exception as e` (line 211), with no `except HTTPException`
re-raise guard such as `generate_form_fields` has, so the 404 is caught
and re-wrapped as `HTTPException(500, f"Error processing PDF page:
{str(e)}")`.  Any other library failure would take the same 500 path
(the dead no-element branch below). -/
def get_pdf_page_display (s : State) (pid n : Nat) : Except HttpError String :=
  match findProject s pid with
  | none => .error ⟨404, "Project not found"⟩
  | some project =>
    match project.pdf_file with
    | none => .error ⟨404, "PDF file not found for this project"⟩
    | some pdf =>
      if 0 < n ∧ n ≤ pdf.pages.length then
        match pdf.pages[n - 1]? with
        | some pg => .ok pg.content
        | none => .error ⟨500, "Error processing PDF page"⟩
      else
        .error ⟨500, "Error processing PDF page: "
          ++ strOfHttpException 404 (pageRangeDetail n pdf.pages.length)⟩

/-- Outcome of the chat service's `POST /chat/new` call, as the endpoint
distinguishes it: a raised `httpx.RequestError`, a non-success HTTP status
(`raise_for_status`), a JSON body whose `"id"` field is missing or falsy,
or a session id. -/
inductive ChatNewResult
  | requestError (msg : String)
  | statusError (status : Nat) (body : String)
  | okNoId
  | okId (sid : String)
  deriving DecidableEq, Repr

/-- Fresh surrogate key for a new project row. -/
def freshId (s : State) : Nat :=
  s.foldl (fun m pr => max m pr.id) 0 + 1

/-- The page-row batch created right after the project row (main.py lines
106-115): `for i in range(num_pages)`, page number `i + 1`, text content
`page_text if page_text else ""`, no cached HTML. -/
def mkPages (pdf : Pdf) : List Page :=
  (List.range pdf.pages.length).map (fun i =>
    { page_number := i + 1
      text_content := ((pdf.pages[i]?.bind PdfPage.extractedText).getD "")
      generated_form_html := none })

/-- Result of one `create_project` call: the HTTP outcome, the datastore
afterwards, and how many chat-service new-session calls were made /
PDF parses were attempted. -/
structure CreateOutcome where
  result : Except HttpError Project
  state : State
  chatNewCalls : Nat
  pdfParses : Nat
  deriving DecidableEq, Repr

/-- `POST /projects/` (main.py lines 60-159).  `pdf` is the outcome of
`PyPDF2.PdfReader` on the uploaded bytes (`none` = parse exception).  All
failures inside the outer `try` — including the `HTTPException`s raised by
the chat-session block, which the final `except Exception` re-catches —
roll back and surface as a 500 whose detail wraps the original error.  The
best-effort PDF upload to the chat session (lines 119-151) is swallowed
and affects neither result nor state, so it is not a parameter. -/
def create_project (s : State) (filename : String) (pdf : Option Pdf)
    (chatNew : ChatNewResult) : CreateOutcome :=
  if ¬(pyEndsWith (pyLower filename) ".pdf") then
    ⟨.error ⟨400, "Invalid file type. Only PDF files are allowed."⟩, s, 0, 0⟩
  else
    match pdf with
    | none =>
      ⟨.error ⟨500, "Error processing PDF or creating project: PdfReadError"⟩, s, 0, 1⟩
    | some pdf =>
      match chatNew with
      | .requestError msg =>
        ⟨.error ⟨500, "Error processing PDF or creating project: "
          ++ "Error calling chat service (new session): " ++ msg⟩, s, 1, 1⟩
      | .statusError _ body =>
        ⟨.error ⟨500, "Error processing PDF or creating project: "
          ++ "Chat service error (new session): " ++ body⟩, s, 1, 1⟩
      | .okNoId =>
        ⟨.error ⟨500, "Error processing PDF or creating project: "
          ++ "Failed to create chat session: session_id not in response"⟩, s, 1, 1⟩
      | .okId sid =>
        let proj : Project :=
          { id := freshId s
            name := filename
            pdf_file := some pdf
            total_pages := pdf.pages.length
            chat_session_id := some sid
            pages := mkPages pdf }
        ⟨.ok proj, s ++ [proj], 1, 1⟩

/-- `DELETE /projects/{project_id}` (main.py lines 172-179); the
`cascade="all, delete-orphan"` relationship removes the project's pages
with it. -/
def delete_project (s : State) (pid : Nat) : Except HttpError Unit × State :=
  match findProject s pid with
  | none => (.error ⟨404, "Project not found"⟩, s)
  | some _ => (.ok (), s.filter (fun pr => pr.id ≠ pid))

/-- The `generation_status` summary built by the bulk endpoint. -/
structure BulkStatus where
  project_id : Nat
  total_pages : Nat
  generation_tasks_initiated : Nat
  details : List (Nat × String)
  deriving DecidableEq, Repr

/-- The loop body of the bulk endpoint: schedule one fire-and-forget task
per page number and bump the counters (main.py lines 347-372). -/
def bulkLoop (pageNums : List Nat) (st : BulkStatus) : BulkStatus :=
  pageNums.foldl (fun st n =>
    { st with
      generation_tasks_initiated := st.generation_tasks_initiated + 1
      details := st.details ++ [(n, "generation_task_initiated")] }) st

/-- `GET /projects/generate-all-forms/?project_id=` (main.py lines
334-375).  The per-page generation calls are detached tasks whose outcomes
the endpoint neither awaits nor reports, so the summary is a function of
the project row alone. -/
def generate_all_forms_for_project (s : State) (pid : Nat) :
    Except HttpError BulkStatus :=
  match findProject s pid with
  | none => .error ⟨404, "Project with id " ++ toString pid ++ " not found"⟩
  | some proj =>
    .ok (bulkLoop (List.range' 1 proj.total_pages)
      { project_id := pid
        total_pages := proj.total_pages
        generation_tasks_initiated := 0
        details := [] })

/-! ### Concrete fixtures, used to evaluate the endpoints at explicit inputs -/

/-- A concrete three-page parsed PDF. -/
def examplePdf : Pdf :=
  ⟨[⟨some "hello world", "page-1-bytes"⟩, ⟨none, "page-2-bytes"⟩, ⟨some "bye", "page-3-bytes"⟩]⟩

/-- A freshly created project over `examplePdf`, before any generation. -/
def exampleProject : Project :=
  { id := 1, name := "doc.pdf", pdf_file := some examplePdf, total_pages := 3,
    chat_session_id := some "sess-1", pages := mkPages examplePdf }

/-- A datastore holding just `exampleProject`. -/
def exampleState : State := [exampleProject]

/-- The same datastore after page 1 got a non-empty cached form. -/
def cachedState : State := setPageHtml exampleState 1 1 "<p>ok</p>"

/-- A model response whose text is nothing but fence markers, so the
stored HTML after normalisation is the empty string. -/
def fenceOnlyResponse : GenaiResponse := ⟨1, "``````", none⟩

/-- An ordinary fenced model response. -/
def fencedResponse : GenaiResponse := ⟨1, "```html\n<div>form</div>\n```", none⟩

/-- The HTTP status of a failed call, `none` on success. -/
def errorStatus {α : Type} : Except HttpError α → Option Nat
  | .error e => some e.status
  | .ok _ => none

/-- The datastore after page 1's cache was left holding the empty string
(as one successful generation of an all-fence response leaves it). -/
def emptyCachedState : State := setPageHtml exampleState 1 1 ""

/-- Claim C9's invariant for one project row. -/
def projectWF (pr : Project) : Prop :=
  pr.pages.map Page.page_number = List.range' 1 pr.total_pages

/-- Claim C9's invariant for the whole datastore. -/
def stateWF (s : State) : Prop := ∀ pr ∈ s, projectWF pr

/-! ### Helper lemmas -/

theorem pyTruthy_some_of_ne (h : String) (hne : h ≠ "") :
    pyTruthy (some h) = true := by
  have hdata : h.data ≠ [] := fun hd => hne (String.ext (by rw [hd]))
  simp [pyTruthy, hdata]

theorem findProject_setPageHtml (s : State) (pid n : Nat) (h : String) :
    findProject (setPageHtml s pid n h) pid =
      (findProject s pid).map (updatePageInProject n h) := by
  unfold findProject setPageHtml
  rw [List.find?_map]
  have hpred : ((fun pr : Project => pr.id == pid) ∘
      (fun pr => if pr.id == pid then updatePageInProject n h pr else pr)) =
      (fun pr : Project => pr.id == pid) := by
    funext pr
    by_cases hid : pr.id = pid
    · simp [hid, updatePageInProject]
    · simp [hid]
  rw [hpred]
  cases hf : List.find? (fun pr : Project => pr.id == pid) s with
  | none => rfl
  | some pr =>
    have hp : pr.id = pid := by simpa using List.find?_some hf
    simp [hp]

theorem findPage_updatePageInProject (pr : Project) (n : Nat) (h : String) :
    findPage (updatePageInProject n h pr) n =
      (findPage pr n).map (fun pg => { pg with generated_form_html := some h }) := by
  unfold findPage updatePageInProject
  rw [List.find?_map]
  have hpred : ((fun pg : Page => pg.page_number == n) ∘
      (fun pg => if pg.page_number == n then { pg with generated_form_html := some h } else pg)) =
      (fun pg : Page => pg.page_number == n) := by
    funext pg
    by_cases hn : pg.page_number = n
    · simp [hn]
    · simp [hn]
  rw [hpred]
  cases hf : List.find? (fun pg : Page => pg.page_number == n) pr.pages with
  | none => rfl
  | some pg =>
    have hp : pg.page_number = n := by simpa using List.find?_some hf
    simp [hp]

theorem findPageInState_setPageHtml (s : State) (pid n : Nat) (h : String) :
    findPageInState (setPageHtml s pid n h) pid n =
      (findPageInState s pid n).map (fun pg => { pg with generated_form_html := some h }) := by
  simp only [findPageInState, findProject_setPageHtml]
  cases findProject s pid with
  | none => rfl
  | some pr => simp [findPage_updatePageInProject]


theorem generate_cache_hit (s : State) (pid n : Nat) (key : Bool)
    (resp : Except String GenaiResponse) (page : Page) (h : String)
    (hfp : findPageInState s pid n = some page)
    (hhtml : page.generated_form_html = some h) (hne : h ≠ "") :
    generate_form_fields s pid n key resp = ⟨.ok ⟨h, .cache⟩, s, 0⟩ := by
  simp [generate_form_fields, hfp, hhtml, pyTruthy_some_of_ne h hne]

theorem generate_error_state (s : State) (pid n : Nat) (key : Bool)
    (resp : Except String GenaiResponse) :
    ∀ e, (generate_form_fields s pid n key resp).result = .error e →
      (generate_form_fields s pid n key resp).state = s := by
  intro e
  unfold generate_form_fields
  repeat' split
  all_goals intro he
  all_goals first | rfl | simp at he

theorem generate_ok_generated (s : State) (pid n : Nat) (key : Bool)
    (resp : Except String GenaiResponse) (r : GenerateOk)
    (hres : (generate_form_fields s pid n key resp).result = .ok r)
    (hsrc : r.source = .generated) :
    ∃ page, findPageInState s pid n = some page ∧
      pyTruthy page.generated_form_html = false ∧
      generate_form_fields s pid n key resp = ⟨.ok r, setPageHtml s pid n r.html_content, 1⟩ := by
  cases hfp : findPageInState s pid n with
  | none => simp [generate_form_fields, hfp] at hres
  | some page =>
    by_cases hc : pyTruthy page.generated_form_html
    · simp only [generate_form_fields, hfp, hc, if_true] at hres
      injection hres with hr
      rw [← hr] at hsrc
      simp at hsrc
    · simp only [Bool.not_eq_true] at hc
      have hex : ∃ pr, findProject s pid = some pr := by
        unfold findPageInState at hfp
        cases hq : findProject s pid with
        | none => rw [hq] at hfp; simp at hfp
        | some pr => exact ⟨pr, rfl⟩
      obtain ⟨pr, hpr⟩ := hex
      cases hpdf : pr.pdf_file with
      | none => simp [generate_form_fields, hfp, hc, hpr, hpdf] at hres
      | some pdf =>
        by_cases hrange : 0 < n ∧ n ≤ pdf.pages.length
        · by_cases hkey : key
          · cases resp with
            | error msg =>
              simp [generate_form_fields, hfp, hc, hpr, hpdf, hrange, hkey] at hres
            | ok gr =>
              by_cases hparts : gr.parts = 0
              · simp [generate_form_fields, hfp, hc, hpr, hpdf, hrange, hkey, hparts] at hres
              · obtain ⟨rh, rs⟩ := r
                simp [generate_form_fields, hfp, hc, hpr, hpdf, hrange, hkey, hparts] at hres
                obtain ⟨h1, h2⟩ := hres
                refine ⟨page, rfl, hc, ?_⟩
                simp [generate_form_fields, hfp, hc, hpr, hpdf, hrange, hkey, hparts, h1, h2]
          · simp [generate_form_fields, hfp, hc, hpr, hpdf, hrange, hkey] at hres
        · simp [generate_form_fields, hfp, hc, hpr, hpdf, hrange] at hres


theorem mkPages_length (pdf : Pdf) : (mkPages pdf).length = pdf.pages.length := by
  simp [mkPages]

theorem mkPages_map_page_number (pdf : Pdf) :
    (mkPages pdf).map Page.page_number = List.range' 1 pdf.pages.length := by
  simp [mkPages, List.map_map, List.range'_eq_map_range]
  intro a _
  omega

theorem updatePageInProject_map_page_number (n : Nat) (h : String) (pr : Project) :
    (updatePageInProject n h pr).pages.map Page.page_number
      = pr.pages.map Page.page_number := by
  simp only [updatePageInProject, List.map_map]
  congr 1
  funext pg
  by_cases hn : pg.page_number = n <;> simp [hn]

theorem projectWF_updatePageInProject (n : Nat) (h : String) (pr : Project)
    (hwf : projectWF pr) : projectWF (updatePageInProject n h pr) := by
  unfold projectWF at *
  rw [updatePageInProject_map_page_number]
  exact hwf

theorem stateWF_setPageHtml (s : State) (pid n : Nat) (h : String) (hwf : stateWF s) :
    stateWF (setPageHtml s pid n h) := by
  intro pr' hmem
  obtain ⟨pr, hpr, rfl⟩ := List.mem_map.mp (by simpa [setPageHtml] using hmem)
  split
  · exact projectWF_updatePageInProject _ _ _ (hwf pr hpr)
  · exact hwf pr hpr

theorem generate_state_eq_or (s : State) (pid n : Nat) (key : Bool)
    (resp : Except String GenaiResponse) :
    (generate_form_fields s pid n key resp).state = s ∨
      ∃ h, (generate_form_fields s pid n key resp).state = setPageHtml s pid n h := by
  unfold generate_form_fields
  repeat' split
  all_goals first
    | exact Or.inl rfl
    | exact Or.inr ⟨_, rfl⟩

theorem create_state_eq_or (s : State) (fn : String) (pdfO : Option Pdf)
    (chat : ChatNewResult) :
    (create_project s fn pdfO chat).state = s ∨
      ∃ pdf sid, pdfO = some pdf ∧
        (create_project s fn pdfO chat).state = s ++
          [{ id := freshId s, name := fn, pdf_file := some pdf,
             total_pages := pdf.pages.length, chat_session_id := some sid,
             pages := mkPages pdf }] := by
  unfold create_project
  repeat' split
  all_goals first
    | exact Or.inl rfl
    | exact Or.inr ⟨_, _, rfl, rfl⟩

theorem bulkLoop_initiated (l : List Nat) (st : BulkStatus) :
    (bulkLoop l st).generation_tasks_initiated
      = st.generation_tasks_initiated + l.length := by
  induction l generalizing st with
  | nil => simp [bulkLoop]
  | cons a t ih =>
    simp only [bulkLoop, List.foldl_cons] at *
    rw [ih]
    simp
    omega



/-- C2: if any step of `POST /projects/{id}/pages/{n}/form/generate` fails
(page missing, project/PDF missing, page out of range, missing credential,
model transport error, or a content-blocked response), the failure is
reported as an HTTP error and the datastore — in particular the page's
cached-HTML field — is exactly as it was before the call; no partial state
is persisted. -/
theorem C2_generate_failure_leaves_state (s : State) (pid n : Nat) (key : Bool)
    (resp : Except String GenaiResponse) (e : HttpError)
    (he : (generate_form_fields s pid n key resp).result = .error e) :
    (generate_form_fields s pid n key resp).state = s :=
  generate_error_state s pid n key resp e he

/-- Witness for C2: a concrete failing generate call (missing API key)
reports a 500 and leaves the datastore untouched. -/
theorem C2_witness :
    (generate_form_fields exampleState 1 1 false (.ok fencedResponse)).state
      = exampleState :=
  C2_generate_failure_leaves_state exampleState 1 1 false (.ok fencedResponse)
    ⟨500, "GOOGLE_API_KEY not configured."⟩ (by decide)

/-- C4 (code bug): the out-of-range check of `GET .../pages/{n}/pdf`
raises `HTTPException(404, <message carrying the valid bound>)` — the
code's own expressed intent, matching the sibling endpoint
`generate_form_fields`, which shields such raises with an
`except HTTPException` re-raise guard — but here the only handler is the
blanket `except Exception`, so the endpoint actually answers every `n`
outside `1..total_pages` with a 500 whose detail merely wraps the
bound-carrying message.  Every `n` in range extracts successfully, as
claimed. -/
theorem C4_out_of_range_collapsed_to_500 (s : State) (pid n : Nat)
    (proj : Project) (pdf : Pdf)
    (hproj : findProject s pid = some proj)
    (hpdf : proj.pdf_file = some pdf)
    (hlen : pdf.pages.length = proj.total_pages) :
    (¬(1 ≤ n ∧ n ≤ proj.total_pages) →
      get_pdf_page_display s pid n = .error ⟨500, "Error processing PDF page: "
        ++ strOfHttpException 404 (pageRangeDetail n proj.total_pages)⟩) ∧
    (1 ≤ n → n ≤ proj.total_pages →
      ∃ pg, pdf.pages[n - 1]? = some pg ∧ get_pdf_page_display s pid n = .ok pg.content) := by
  constructor
  · intro hout
    simp only [get_pdf_page_display, hproj, hpdf]
    rw [if_neg (by omega), hlen]
  · intro h1 h2
    have hlt : n - 1 < pdf.pages.length := by omega
    refine ⟨pdf.pages[n - 1], List.getElem?_eq_getElem hlt, ?_⟩
    simp only [get_pdf_page_display, hproj, hpdf]
    rw [if_pos (by omega), List.getElem?_eq_getElem hlt]

/-- Witness for C4 at the failing input: page 4 of the three-page fixture
is answered with the wrapping 500, not the claimed bound-carrying 404. -/
theorem C4_bug_witness :
    get_pdf_page_display exampleState 1 4 = .error ⟨500, "Error processing PDF page: "
      ++ strOfHttpException 404 (pageRangeDetail 4 3)⟩ :=
  (C4_out_of_range_collapsed_to_500 exampleState 1 4 exampleProject examplePdf
    (by decide) (by decide) (by decide)).1 (by decide)

/-- C5: on project creation with a valid PDF filename, every failure of the
chat service's new-session call (transport error, error status, missing
session id) aborts the whole operation with a 5xx error (the outer handler
turns it into a 500) and leaves the datastore unchanged: no Project row
and no Page rows are persisted. -/
theorem C5_chat_session_failure_aborts (s : State) (fn : String) (pdf : Pdf)
    (chat : ChatNewResult)
    (hfn : pyEndsWith (pyLower fn) ".pdf" = true)
    (hfail : ∀ sid, chat ≠ ChatNewResult.okId sid) :
    errorStatus (create_project s fn (some pdf) chat).result = some 500 ∧
    (create_project s fn (some pdf) chat).state = s := by
  cases chat with
  | okId sid => exact absurd rfl (hfail sid)
  | requestError msg => constructor <;> simp [create_project, hfn, errorStatus]
  | statusError st body => constructor <;> simp [create_project, hfn, errorStatus]
  | okNoId => constructor <;> simp [create_project, hfn, errorStatus]

/-- Witness for C5: a new-session response without an id aborts creation
with a 500 and no datastore change. -/
theorem C5_witness :
    errorStatus (create_project exampleState "new.pdf" (some examplePdf)
        ChatNewResult.okNoId).result = some 500 ∧
    (create_project exampleState "new.pdf" (some examplePdf)
        ChatNewResult.okNoId).state = exampleState :=
  C5_chat_session_failure_aborts exampleState "new.pdf" examplePdf .okNoId (by decide)
    (fun _ h => by cases h)

/-- C6: a project-creation request whose filename does not end in ".pdf"
case-insensitively is rejected with a 400 before any datastore write, chat
call or PDF parse: the outcome is exactly the 400 error with the state
unchanged, zero chat-service calls and zero parse attempts. -/
theorem C6_nonpdf_rejected (s : State) (fn : String) (pdfO : Option Pdf)
    (chat : ChatNewResult)
    (hfn : pyEndsWith (pyLower fn) ".pdf" = false) :
    create_project s fn pdfO chat =
      ⟨.error ⟨400, "Invalid file type. Only PDF files are allowed."⟩, s, 0, 0⟩ := by
  simp [create_project, hfn]

/-- Witness for C6 at the spec's example filename "notes.txt". -/
theorem C6_witness :
    create_project exampleState "notes.txt" (some examplePdf) (.okId "sess-2") =
      ⟨.error ⟨400, "Invalid file type. Only PDF files are allowed."⟩, exampleState, 0, 0⟩ :=
  C6_nonpdf_rejected exampleState "notes.txt" (some examplePdf) (.okId "sess-2") (by decide)

/-- C8: `GET /projects/generate-all-forms/?project_id=` reports exactly
`total_pages` initiated tasks for an existing project — the summary is a
function of the project row alone, independent of any generation outcome —
and a 404 for a missing project id. -/
theorem C8_bulk_initiates_total_pages (s : State) (pid : Nat) :
    (findProject s pid = none →
      generate_all_forms_for_project s pid =
        .error ⟨404, "Project with id " ++ toString pid ++ " not found"⟩) ∧
    (∀ proj, findProject s pid = some proj →
      (generate_all_forms_for_project s pid).map BulkStatus.generation_tasks_initiated
        = .ok proj.total_pages) := by
  constructor
  · intro h
    simp [generate_all_forms_for_project, h]
  · intro proj h
    simp only [generate_all_forms_for_project, h, Except.map]
    rw [bulkLoop_initiated]
    simp

/-- Witness for C8: the three-page fixture reports three initiated tasks. -/
theorem C8_witness :
    (generate_all_forms_for_project exampleState 1).map
      BulkStatus.generation_tasks_initiated = .ok 3 :=
  (C8_bulk_initiates_total_pages exampleState 1).2 exampleProject (by decide)


theorem generate_ok_source_of_not_truthy (s : State) (pid n : Nat) (key : Bool)
    (resp : Except String GenaiResponse) (page : Page)
    (hfp : findPageInState s pid n = some page)
    (hc : pyTruthy page.generated_form_html = false) :
    ∀ r, (generate_form_fields s pid n key resp).result = .ok r →
      r.source = .generated := by
  intro r hres
  simp only [generate_form_fields, hfp, hc, Bool.false_eq_true, if_false] at hres
  repeat' split at hres
  all_goals cases hres
  all_goals rfl

/-- C1 (amended): a generate call on a page whose cached-HTML field is
non-empty returns the stored HTML tagged source=cache with zero model calls
and zero datastore writes; and when a successful generate call stores a
NON-EMPTY html string, a second sequential call (any key/model oracle)
returns that string tagged source=cache with zero model calls and no state
change.  (As stated the claim is false: a successful first call can store
the empty string, which the truthiness cache check then treats as absent —
see the counterexample.) -/
theorem C1_cache_behaviour :
    (∀ s pid n key resp page h, findPageInState s pid n = some page →
      page.generated_form_html = some h → h ≠ "" →
      generate_form_fields s pid n key resp = ⟨.ok ⟨h, .cache⟩, s, 0⟩) ∧
    (∀ s pid n key resp key' resp' r,
      (generate_form_fields s pid n key resp).result = .ok r →
      r.source = .generated → r.html_content ≠ "" →
      generate_form_fields (generate_form_fields s pid n key resp).state pid n key' resp'
        = ⟨.ok ⟨r.html_content, .cache⟩, (generate_form_fields s pid n key resp).state, 0⟩) := by
  constructor
  · intro s pid n key resp page h hfp hh hne
    exact generate_cache_hit s pid n key resp page h hfp hh hne
  · intro s pid n key resp key' resp' r hres hsrc hne
    obtain ⟨page, hfp, hc, heq⟩ := generate_ok_generated s pid n key resp r hres hsrc
    have hstate : (generate_form_fields s pid n key resp).state
        = setPageHtml s pid n r.html_content := by rw [heq]
    have hfind : findPageInState (setPageHtml s pid n r.html_content) pid n
        = some { page with generated_form_html := some r.html_content } := by
      rw [findPageInState_setPageHtml, hfp]
      rfl
    rw [hstate]
    exact generate_cache_hit _ pid n key' resp' _ r.html_content hfind rfl hne

/-- Counterexample to C1 as stated: with a model response consisting only
of fence markers, the first generate call SUCCEEDS (source=generated) but
stores the empty string, and the second sequential call — no external
state change — again returns source=generated rather than the claimed
source=cache. -/
theorem C1_counterexample :
    (generate_form_fields exampleState 1 1 true (.ok fenceOnlyResponse)).result
        = .ok ⟨"", .generated⟩ ∧
    (generate_form_fields
        (generate_form_fields exampleState 1 1 true (.ok fenceOnlyResponse)).state
        1 1 true (.ok fenceOnlyResponse)).result = .ok ⟨"", .generated⟩ := by
  decide

/-- Witness for C1: both amended parts applied at concrete inputs — the
cache hit on a page cached with "<p>ok</p>", and the generated-then-cached
round trip for the fenced response. -/
theorem C1_witness :
    generate_form_fields cachedState 1 1 true (.ok fencedResponse)
      = ⟨.ok ⟨"<p>ok</p>", .cache⟩, cachedState, 0⟩ ∧
    generate_form_fields
        (generate_form_fields exampleState 1 1 true (.ok fencedResponse)).state
        1 1 true (.ok fenceOnlyResponse)
      = ⟨.ok ⟨"<div>form</div>", .cache⟩,
         (generate_form_fields exampleState 1 1 true (.ok fencedResponse)).state, 0⟩ :=
  ⟨C1_cache_behaviour.1 cachedState 1 1 true (.ok fencedResponse)
      ⟨1, "hello world", some "<p>ok</p>"⟩ "<p>ok</p>" (by decide) (by decide) (by decide),
   C1_cache_behaviour.2 exampleState 1 1 true (.ok fencedResponse) true
      (.ok fenceOnlyResponse) ⟨"<div>form</div>", .generated⟩ (by decide) rfl (by decide)⟩


/-- C3 (amended): the stored-HTML normalisation strips a leading literal
"```html" prefix and then ADDITIONALLY a leading "```" prefix if one is
still present (the two strips are sequential, not alternatives as the
claim's "else" says); it strips a trailing "```" suffix and trims
surrounding whitespace.  Whenever no "```" immediately follows a stripped
"```html" marker, this coincides with the claim's description
(`normalizeHtmlSpec`); in particular a response beginning with "```html",
with no second fence right after it, and ending with "```" is stored with
both markers removed and the remainder whitespace-trimmed. -/
theorem C3_fence_stripping :
    (∀ t, (pyStartsWith t "```html" && pyStartsWith (pySliceFrom t 7) "```") = false →
      normalizeHtml t = normalizeHtmlSpec t) ∧
    (∀ t, pyStartsWith t "```html" = true →
      pyStartsWith (pySliceFrom t 7) "```" = false →
      pyEndsWith (pySliceFrom t 7) "```" = true →
      normalizeHtml t = pyStrip (pySliceUpToNeg (pySliceFrom t 7) 3)) := by
  constructor
  · intro t hno
    cases h1 : pyStartsWith t "```html" with
    | true =>
      have h2 : pyStartsWith (pySliceFrom t 7) "```" = false := by
        cases h : pyStartsWith (pySliceFrom t 7) "```" with
        | false => rfl
        | true => rw [h1, h] at hno; cases hno
      simp [normalizeHtml, normalizeHtmlSpec, h1, h2]
    | false => simp [normalizeHtml, normalizeHtmlSpec, h1]
  · intro t h1 h2 h3
    simp [normalizeHtml, h1, h2, h3]

/-- Counterexample to C3 as stated: on the text "```html```x```" the code
strips BOTH the "```html" prefix and the following "```" (sequential ifs),
storing "x", whereas the claimed else-semantics (`normalizeHtmlSpec`)
would strip only "```html" and the trailing fence, giving "```x". -/
theorem C3_counterexample :
    normalizeHtml "```html```x```" = "x" ∧
    normalizeHtmlSpec "```html```x```" = "```x" ∧
    normalizeHtml "```html```x```" ≠ normalizeHtmlSpec "```html```x```" := by
  decide

/-- Witness for C3: both amended parts applied to the ordinary fenced
response text. -/
theorem C3_witness :
    normalizeHtml "```html\n<div>form</div>\n```"
      = normalizeHtmlSpec "```html\n<div>form</div>\n```" ∧
    normalizeHtml "```html\n<div>form</div>\n```"
      = pyStrip (pySliceUpToNeg (pySliceFrom "```html\n<div>form</div>\n```" 7) 3) :=
  ⟨C3_fence_stripping.1 "```html\n<div>form</div>\n```" (by decide),
   C3_fence_stripping.2 "```html\n<div>form</div>\n```" (by decide) (by decide) (by decide)⟩

/-- C7: `GET .../form/html` fails with a 404 while the page's cached-HTML
field is unset, and after one successful generate call it returns exactly
the HTML string that call produced and stored (byte-identical, fences
already stripped by the generate path). -/
theorem C7_form_html_roundtrip :
    (∀ s pid n page, findPageInState s pid n = some page →
      page.generated_form_html = none →
      get_or_generate_form_html s pid n = .error ⟨404, notGeneratedDetail pid n⟩) ∧
    (∀ s pid n key resp r,
      (generate_form_fields s pid n key resp).result = .ok r → r.source = .generated →
      get_or_generate_form_html (generate_form_fields s pid n key resp).state pid n
        = .ok r.html_content) := by
  constructor
  · intro s pid n page hfp hnone
    simp [get_or_generate_form_html, hfp, hnone]
  · intro s pid n key resp r hres hsrc
    obtain ⟨page, hfp, hc, heq⟩ := generate_ok_generated s pid n key resp r hres hsrc
    rw [heq]
    have hfind : findPageInState (setPageHtml s pid n r.html_content) pid n
        = some { page with generated_form_html := some r.html_content } := by
      rw [findPageInState_setPageHtml, hfp]
      rfl
    simp [get_or_generate_form_html, hfind]

/-- Witness for C7: the fixture's page 1 has no cached HTML so the getter
404s; after the fenced generate call it returns exactly the stored HTML. -/
theorem C7_witness :
    get_or_generate_form_html exampleState 1 1 = .error ⟨404, notGeneratedDetail 1 1⟩ ∧
    get_or_generate_form_html
        (generate_form_fields exampleState 1 1 true (.ok fencedResponse)).state 1 1
      = .ok "<div>form</div>" :=
  ⟨C7_form_html_roundtrip.1 exampleState 1 1 ⟨1, "hello world", none⟩ (by decide) rfl,
   C7_form_html_roundtrip.2 exampleState 1 1 true (.ok fencedResponse)
     ⟨"<div>form</div>", .generated⟩ (by decide) rfl⟩


theorem stateWF_of_append_mkPages (s : State) (pr : Project) (pdf : Pdf)
    (hwf : stateWF s)
    (hpages : pr.pages = mkPages pdf) (htotal : pr.total_pages = pdf.pages.length) :
    stateWF (s ++ [pr]) := by
  intro q hq
  rcases List.mem_append.mp hq with hmem | hmem
  · exact hwf q hmem
  · have hq' : q = pr := by simpa using hmem
    subst hq'
    unfold projectWF
    rw [hpages, htotal]
    exact mkPages_map_page_number pdf

/-- C9: after a successful creation the project's page numbers are exactly
1..total_pages (no gaps, no duplicates, row count = total_pages), the
text-content of every page is a string — the empty string whenever
extraction yields nothing — and the invariant is preserved by every
state-changing operation (create, generate, delete; the read endpoints do
not touch the store). -/
theorem C9_pages_invariant :
    (∀ s fn pdfO chat, stateWF s → stateWF (create_project s fn pdfO chat).state) ∧
    (∀ s pid n key resp, stateWF s → stateWF (generate_form_fields s pid n key resp).state) ∧
    (∀ s pid, stateWF s → stateWF (delete_project s pid).2) ∧
    (∀ s pr, stateWF s → pr ∈ s →
      pr.pages.length = pr.total_pages ∧
      (pr.pages.map Page.page_number).Nodup ∧
      (∀ k, k ∈ pr.pages.map Page.page_number ↔ 1 ≤ k ∧ k ≤ pr.total_pages)) ∧
    (∀ (pdf : Pdf) (i : Nat), pdf.pages[i]?.map PdfPage.extractedText = some none →
      (mkPages pdf)[i]?.map Page.text_content = some "") := by
  refine ⟨?_, ?_, ?_, ?_, ?_⟩
  · intro s fn pdfO chat hwf
    rcases create_state_eq_or s fn pdfO chat with h | ⟨pdf, sid, _, h⟩
    · rw [h]; exact hwf
    · rw [h]
      exact stateWF_of_append_mkPages s _ pdf hwf rfl rfl
  · intro s pid n key resp hwf
    rcases generate_state_eq_or s pid n key resp with h | ⟨hh, h⟩
    · rw [h]; exact hwf
    · rw [h]; exact stateWF_setPageHtml s pid n hh hwf
  · intro s pid hwf
    unfold delete_project
    cases hq : findProject s pid with
    | none => exact hwf
    | some pr =>
      intro q hq'
      exact hwf q (List.mem_of_mem_filter hq')
  · intro s pr hwf hmem
    have hp : pr.pages.map Page.page_number = List.range' 1 pr.total_pages := hwf pr hmem
    refine ⟨?_, ?_, ?_⟩
    · have := congrArg List.length hp
      simpa using this
    · rw [hp]; exact List.nodup_range' ..
    · intro k
      rw [hp, List.mem_range'_1]
      omega
  · intro pdf i hnone
    cases hpg : pdf.pages[i]? with
    | none => rw [hpg] at hnone; cases hnone
    | some pg =>
      rw [hpg] at hnone
      have hext : pg.extractedText = none := by
        simpa using hnone
      have hlt : i < pdf.pages.length := by
        rcases List.getElem?_eq_some.mp hpg with ⟨h, _⟩
        exact h
      simp [mkPages, List.getElem?_map, List.getElem?_range, hlt, hpg, hext]

/-- Witness for C9: the invariant holds of the concrete fixture store and
is carried through a concrete create, generate and delete. -/
theorem C9_witness :
    stateWF (create_project exampleState "new.pdf" (some examplePdf) (.okId "sess-2")).state ∧
    stateWF (generate_form_fields exampleState 1 1 true (.ok fencedResponse)).state ∧
    stateWF (delete_project exampleState 1).2 ∧
    (mkPages examplePdf)[1]?.map Page.text_content = some "" :=
  have h : stateWF exampleState := by
    unfold stateWF projectWF
    decide
  ⟨C9_pages_invariant.1 exampleState "new.pdf" (some examplePdf) (.okId "sess-2") h,
   C9_pages_invariant.2.1 exampleState 1 1 true (.ok fencedResponse) h,
   C9_pages_invariant.2.2.1 exampleState 1 h,
   C9_pages_invariant.2.2.2.2 examplePdf 1 (by decide)⟩


/-- C10: the two endpoints disagree on an empty-string cache entry.  For a
page whose cached-HTML field holds "" the generate endpoint treats the
cache as absent — any successful result it returns is tagged
source=generated, and whenever the pipeline can run (project and PDF
present, page in range, key configured) it performs exactly one new model
call — while the form-html getter treats it as present and returns "" with
success. -/
theorem C10_empty_cache_disagreement (s : State) (pid n : Nat) (page : Page)
    (hfp : findPageInState s pid n = some page)
    (hempty : page.generated_form_html = some "") :
    (∀ key resp r, (generate_form_fields s pid n key resp).result = .ok r →
      r.source = .generated) ∧
    (∀ resp proj pdf, findProject s pid = some proj → proj.pdf_file = some pdf →
      1 ≤ n → n ≤ pdf.pages.length →
      (generate_form_fields s pid n true resp).modelCalls = 1) ∧
    get_or_generate_form_html s pid n = .ok "" := by
  have hc : pyTruthy page.generated_form_html = false := by
    rw [hempty]
    rfl
  refine ⟨?_, ?_, ?_⟩
  · intro key resp r hres
    exact generate_ok_source_of_not_truthy s pid n key resp page hfp hc r hres
  · intro resp proj pdf hproj hpdf h1 h2
    have hrange : 0 < n ∧ n ≤ pdf.pages.length := ⟨h1, h2⟩
    cases resp with
    | error msg => simp [generate_form_fields, hfp, hc, hproj, hpdf, hrange]
    | ok gr =>
      by_cases hparts : gr.parts = 0 <;>
        simp [generate_form_fields, hfp, hc, hproj, hpdf, hrange, hparts]
  · simp [get_or_generate_form_html, hfp, hempty]

/-- Witness for C10 on the fixture whose page 1 cache holds "": the
generate call re-generates (one model call, source=generated) while the
getter happily serves the empty string. -/
theorem C10_witness :
    (⟨"<div>form</div>", .generated⟩ : GenerateOk).source = .generated ∧
    (generate_form_fields emptyCachedState 1 1 true (.ok fencedResponse)).modelCalls = 1 ∧
    get_or_generate_form_html emptyCachedState 1 1 = .ok "" :=
  have h := C10_empty_cache_disagreement emptyCachedState 1 1
    ⟨1, "hello world", some ""⟩ (by decide) rfl
  ⟨h.1 true (.ok fencedResponse) ⟨"<div>form</div>", .generated⟩ (by decide),
   h.2.1 (.ok fencedResponse) (updatePageInProject 1 "" exampleProject) examplePdf
     (by decide) (by decide) (by decide) (by decide),
   h.2.2⟩

end Docu
